/-
  Verification of the intent-classification / entity-extraction pipeline and the
  conversation-state-driven dialogue router of the groq-chatbot-aninkafashion
  repository (TypeScript), as a shallow embedding in Lean 4.

  Sources embedded:
  * EntityExtractor.ts        (keyword tables, extractEntities)
  * IntentClassifier.ts       (Intent, classifyIntent, shouldUseFallback)
  * ConversationState.ts      (ConversationState, createConversationState,
                               updateConversationState)
  * ConversationStateManager.ts (session store: getConversationState, updateState)
  * chatController.ts         (the chat handler, modelled turn by turn; external
                               collaborators — product/order/user lookups and the
                               LLM call — are oracles supplied through `Env`)

  Strings are Lean `String`s; JavaScript `includes` is an executable substring
  test; the two `\d+`-capturing regexes are modelled by an explicit scanner with
  the same leftmost-match, alternation-in-order semantics; confidences are exact
  rationals.
-/
import Mathlib

namespace Aninka

/-! ## String primitives (JS semantics on ASCII) -/

/-- ASCII lowercasing, modelling `String.prototype.toLowerCase` on the
alphabets actually used by the keyword tables. -/
def lowerStr (s : String) : String := ⟨s.data.map Char.toLower⟩

/-- Does `pat` occur as a contiguous substring of `s`?  Auxiliary scan. -/
def strContainsAux (pat : List Char) : List Char → Bool
  | [] => pat.isEmpty
  | c :: rest => pat.isPrefixOf (c :: rest) || strContainsAux pat rest

/-- JS `s.includes(pat)`. -/
def strContains (s pat : String) : Bool := strContainsAux pat.data s.data

/-- JS regex `\w` (word character): ASCII letter, digit or underscore. -/
def isWordChar (c : Char) : Bool := c.isAlphanum || c == '_'

/-- Is there a `\b` boundary between `prev` (string edge when `none`) and the
first character of `pat`?  Vacuously true for an empty pattern. -/
def wbStartOk (prev : Option Char) (pat : List Char) : Bool :=
  match pat with
  | [] => true
  | c :: _ =>
    (match prev with
     | none => false
     | some p => isWordChar p) != isWordChar c

/-- Is there a `\b` boundary between the last character of `pat` and the first
character of `rest` (string edge when `rest` is empty)? -/
def wbEndOk (pat : List Char) (rest : List Char) : Bool :=
  match pat.getLast? with
  | none => true
  | some c =>
    isWordChar c !=
      (match rest with
       | [] => false
       | r :: _ => isWordChar r)

/-- Scan for an occurrence of `pat` flanked by word boundaries, remembering the
previous character. -/
def wordMatchAux (pat : List Char) (prev : Option Char) : List Char → Bool
  | [] => pat.isPrefixOf [] && wbStartOk prev pat && wbEndOk pat []
  | c :: rest =>
    (pat.isPrefixOf (c :: rest) && wbStartOk prev pat
      && wbEndOk pat (List.drop pat.length (c :: rest)))
    || wordMatchAux pat (some c) rest

/-- JS `new RegExp("\\b" ++ pat ++ "\\b", "i").test s` for the literal patterns
of the size vocabulary, on an already-lowercased string. -/
def wordMatch (s pat : String) : Bool := wordMatchAux pat.data none s.data

/-- JS `\s` on the ASCII range. -/
def isWs (c : Char) : Bool :=
  c == ' ' || c == '\t' || c == '\n' || c == '\r' || c == '\x0b' || c == '\x0c'

/-- Drop leading whitespace. -/
def skipWs : List Char → List Char
  | [] => []
  | c :: rest => if isWs c then skipWs rest else c :: rest

/-- After a trigger word, match `\s*[#:]?\s*(\d+)` and return the captured
digit run.  Because whitespace, `#`/`:` and digits are disjoint character
classes, greedy matching with backtracking reduces to this direct scan. -/
def matchNumTail (s : List Char) : Option String :=
  let s1 := skipWs s
  let s2 :=
    match s1 with
    | c :: rest => if c == '#' || c == ':' then rest else s1
    | [] => s1
  let s3 := skipWs s2
  let ds := s3.takeWhile Char.isDigit
  if ds.isEmpty then none else some ⟨ds⟩

/-- Leftmost match of `(?:t1|t2|...)\s*[#:]?\s*(\d+)` over the triggers, with
alternatives tried in order at each position, returning the capture. -/
def regexCapture (triggers : List String) : List Char → Option String
  | [] => none
  | c :: rest =>
    match triggers.findSome?
        (fun t =>
          if t.data.isPrefixOf (c :: rest) then
            matchNumTail (List.drop t.data.length (c :: rest))
          else none) with
    | some d => some d
    | none => regexCapture triggers rest

/-! ## EntityExtractor.ts — keyword tables -/

def COLOR_KEYWORDS : List String :=
  ["merah", "biru", "hijau", "kuning", "hitam", "putih", "abu", "abu-abu",
   "coklat", "ungu", "pink", "oren", "oranye", "emas", "silver",
   "red", "blue", "green", "yellow", "black", "white", "grey", "gray",
   "brown", "purple", "pink", "orange", "gold", "silver"]

def SIZE_KEYWORDS : List String :=
  ["s", "m", "l", "xl", "xxl", "xxxl",
   "all size", "all-size", "allsz", "jumbo", "standar", "standard",
   "28", "29", "30", "31", "32", "33", "34", "35", "36", "37", "38", "39", "40",
   "41", "42", "43", "44", "45"]

def PRODUCT_KEYWORDS : List String :=
  ["produk", "barang", "twill", "manohara", "standard", "std", "bahan", "item",
   "baju", "pakaian",
   "dress", "kemeja", "celana", "rok", "jaket", "sweater", "kaos", "t-shirt",
   "jeans",
   "sepatu", "shoes", "sandal", "tas", "bag", "aksesoris", "accessories",
   "topi", "hat",
   "kacamata", "glasses", "jam tangan", "watch", "perhiasan", "jewelry",
   "gelang", "bracelet",
   "kalung", "necklace", "cincin", "ring", "anting", "earrings", "syal",
   "scarf", "belt", "ikat pinggang",
   "dompet", "wallet", "cari", "search", "find", "temukan", "rekomendasi",
   "recommendation"]

def ORDER_KEYWORDS : List String :=
  ["order", "pesanan", "pembelian", "purchase", "tracking", "lacak", "status",
   "pengiriman", "delivery", "shipment", "resi", "receipt", "invoice", "faktur",
   "pembayaran", "payment", "konfirmasi", "confirmation", "return",
   "pengembalian",
   "refund", "cancel", "batal", "complain", "komplain", "keluhan",
   "nomor order",
   "order number", "id pesanan", "order id", "cek pesanan", "check order"]

/-- `CATEGORY_KEYWORDS`: keyword → category pairs, in object-literal insertion
order (the order `Object.entries` yields). -/
def CATEGORY_KEYWORDS : List (String × String) :=
  [("dress", "gamis"), ("gaun", "gamis"),
   ("atasan", "setelan"), ("blouse", "setelan"), ("kemeja", "shirt"),
   ("baju", "tops"), ("pakaian", "setelan"), ("celana", "setelan"),
   ("jeans", "setelan"),
   ("rok", "setelan"), ("jaket", "setelan"), ("sweater", "setelan"),
   ("kaos", "setelan"), ("t-shirt", "setelan"),
   ("daster", "daster"), ("gamis", "gamis"), ("setelan", "setelan"),
   ("sepatu", "shoes"), ("shoes", "shoes"), ("sandal", "shoes"),
   ("tas", "bag"), ("bag", "bag"), ("topi", "hat"), ("hat", "hat"),
   ("dompet", "wallet")]

def USER_STATUS_KEYWORDS : List String :=
  ["status saya", "status user", "akun saya", "membership", "keanggotaan",
   "user status", "my account", "profil saya"]

def MENU_KEYWORDS : List String :=
  ["menu", "fitur", "layanan", "akses", "apa saja yang bisa",
   "apa yang tersedia", "what can i access", "available menu", "options"]

def GENERAL_FAQ_KEYWORDS : List String :=
  ["ini web apa", "tentang", "apa itu", "siapa", "company",
   "perusahaan", "brand", "official", "resmi", "apa fungsi", "apa gunanya"]

/-- Trigger alternation of the order-id regex, in source order. -/
def ORDER_ID_TRIGGERS : List String :=
  ["order", "pesanan", "tracking", "lacak", "status", "nomor", "number", "id"]

/-- Trigger alternation of the user-id regex, in source order. -/
def USER_ID_TRIGGERS : List String :=
  ["user", "pengguna", "member", "anggota", "akun", "account"]

/-! ## EntityExtractor.ts — ExtractedEntities and extractEntities -/

/-- `ExtractedEntities`: a sparse record; `none` models an absent (undefined)
field.  `order_action` keeps the TS string-literal values
"cancel" / "return" / "refund". -/
structure ExtractedEntities where
  product_name : Option String := none
  product_keywords : Option (List String) := none
  color : Option String := none
  size : Option String := none
  category : Option String := none
  order_id : Option String := none
  order_keywords : Option (List String) := none
  user_status : Option Bool := none
  user_id : Option String := none
  menu_query : Option Bool := none
  order_action : Option String := none
  general_faq : Option Bool := none
deriving DecidableEq, Repr

/-- `===== Category =====` section: first table entry whose keyword is a
substring wins (break on first hit). -/
def categoryStep (lm : String) (e : ExtractedEntities) : ExtractedEntities :=
  match CATEGORY_KEYWORDS.find? (fun kc => strContains lm kc.1) with
  | some kc => { e with category := some kc.2 }
  | none => e

/-- `Default fallback kategori` section: exactly as written in the source, the
guard reads `product_keywords` / `product_name` at this point of the
extraction, i.e. before the product section below has assigned them. -/
def categoryDefaultStep (e : ExtractedEntities) : ExtractedEntities :=
  if e.category.isNone && (e.product_keywords.isSome || e.product_name.isSome)
  then { e with category := some "gamis" }
  else e

/-- `===== Product Keywords =====` section. -/
def productStep (lm : String) (e : ExtractedEntities) : ExtractedEntities :=
  let productMatches := PRODUCT_KEYWORDS.filter (fun kw => strContains lm kw)
  if productMatches.length > 0 then
    { e with product_keywords := some productMatches
             product_name := productMatches.head? }
  else e

/-- `===== Order Keywords =====` section. -/
def orderKeywordsStep (lm : String) (e : ExtractedEntities) : ExtractedEntities :=
  let orderMatches := ORDER_KEYWORDS.filter (fun kw => strContains lm kw)
  if orderMatches.length > 0 then { e with order_keywords := some orderMatches }
  else e

/-- `===== Order ID =====` section. -/
def orderIdStep (lm : String) (e : ExtractedEntities) : ExtractedEntities :=
  match regexCapture ORDER_ID_TRIGGERS lm.data with
  | some d => { e with order_id := some d }
  | none => e

/-- `===== Order Actions =====` section: fixed priority cancel, return,
refund; at most one recorded. -/
def orderActionStep (lm : String) (e : ExtractedEntities) : ExtractedEntities :=
  if strContains lm "cancel" || strContains lm "batal" then
    { e with order_action := some "cancel" }
  else if strContains lm "return" || strContains lm "pengembalian" then
    { e with order_action := some "return" }
  else if strContains lm "refund" then
    { e with order_action := some "refund" }
  else e

/-- `===== Color =====` section. -/
def colorStep (lm : String) (e : ExtractedEntities) : ExtractedEntities :=
  match COLOR_KEYWORDS.find? (fun c => strContains lm c) with
  | some c => { e with color := some c }
  | none => e

/-- `===== Size =====` section (word-boundary regex test). -/
def sizeStep (lm : String) (e : ExtractedEntities) : ExtractedEntities :=
  match SIZE_KEYWORDS.find? (fun sz => wordMatch lm sz) with
  | some sz => { e with size := some sz }
  | none => e

/-- `===== User Status =====` section. -/
def userStatusStep (lm : String) (e : ExtractedEntities) : ExtractedEntities :=
  if USER_STATUS_KEYWORDS.any (fun kw => strContains lm kw) then
    { e with user_status := some true }
  else e

/-- `===== User ID =====` section. -/
def userIdStep (lm : String) (e : ExtractedEntities) : ExtractedEntities :=
  match regexCapture USER_ID_TRIGGERS lm.data with
  | some d => { e with user_id := some d }
  | none => e

/-- `===== Menu Query =====` section. -/
def menuStep (lm : String) (e : ExtractedEntities) : ExtractedEntities :=
  if MENU_KEYWORDS.any (fun kw => strContains lm kw) then
    { e with menu_query := some true }
  else e

/-- `===== General FAQ =====` section. -/
def faqStep (lm : String) (e : ExtractedEntities) : ExtractedEntities :=
  if GENERAL_FAQ_KEYWORDS.any (fun kw => strContains lm kw) then
    { e with general_faq := some true }
  else e

/-- `extractEntities` (EntityExtractor.ts): the sections above applied in
source order to an initially empty record of the lowercased message. -/
def extractEntities (message : String) : ExtractedEntities :=
  let lm := lowerStr message
  faqStep lm (menuStep lm (userIdStep lm (userStatusStep lm (sizeStep lm
    (colorStep lm (orderActionStep lm (orderIdStep lm (orderKeywordsStep lm
      (productStep lm (categoryDefaultStep (categoryStep lm {})))))))))))

/-! ## IntentClassifier.ts — Intent, classifyIntent, shouldUseFallback -/

/-- The `Intent` enum of IntentClassifier.ts. -/
inductive Intent where
  | PRODUCT_SEARCH
  | ORDER_TRACKING
  | GREETING
  | GENERAL_QUERY
  | FALLBACK
  | USER_STATUS
  | MENU_QUERY
  | ORDER_ACTION
  | GENERAL_FAQ
deriving DecidableEq, Repr

def GREETING_PATTERNS : List String :=
  ["halo", "hello", "hi", "hey", "selamat pagi", "selamat siang",
   "selamat sore",
   "selamat malam", "good morning", "good afternoon", "good evening",
   "assalamualaikum",
   "permisi", "excuse me", "hai", "apa kabar", "how are you"]

/-- `IntentClassification`: intent, confidence (exact rational) and the
extracted entities. -/
structure IntentClassification where
  intent : Intent
  confidence : ℚ
  entities : ExtractedEntities
deriving DecidableEq, Repr

/-- `ConversationState.context` (ConversationState.ts). -/
structure ConvContext where
  lastMessage : String
  lastResponse : String
  previousIntents : List Intent
  turnCount : Nat
  lastProductSearch : Option String := none
  lastOrderId : Option String := none
deriving DecidableEq, Repr

/-- `ConversationState` (ConversationState.ts).  `currentIntent` is
`string | null` in TS; the stored values are always intent-enum strings, so it
is modelled as `Option Intent`. -/
structure ConversationState where
  sessionId : String
  currentIntent : Option Intent
  entities : ExtractedEntities
  context : ConvContext
  confidence : ℚ
deriving DecidableEq, Repr

/-- `createConversationState` (ConversationState.ts). -/
def createConversationState (sessionId : String) : ConversationState :=
  { sessionId := sessionId
    currentIntent := none
    entities := {}
    context :=
      { lastMessage := ""
        lastResponse := ""
        previousIntents := []
        turnCount := 0 }
    confidence := 1 }

/-- JS truthiness of an optional-string expression: absent or empty is falsy. -/
def jsTruthy : Option String → Bool
  | none => false
  | some s => !s.isEmpty

/-- Does the product-keywords field have a truthy `?.length`? -/
def optListNonempty : Option (List String) → Bool
  | none => false
  | some l => !l.isEmpty

/-- `classifyIntent` (IntentClassifier.ts): the ordered rule cascade,
first match wins. -/
def classifyIntent (message : String) (state : Option ConversationState) :
    IntentClassification :=
  let lowercaseMessage := lowerStr message
  let entities := extractEntities message
  if GREETING_PATTERNS.any (fun p => strContains lowercaseMessage p)
      && decide (lowercaseMessage.length < 20) then
    { intent := .GREETING, confidence := mkRat 9 10, entities := {} }
  else if entities.product_keywords.isSome || entities.product_name.isSome
      || entities.color.isSome || entities.size.isSome
      || entities.category.isSome then
    { intent := .PRODUCT_SEARCH
      confidence :=
        if entities.product_name.isSome
            || optListNonempty entities.product_keywords then mkRat 85 100 else mkRat 7 10
      entities := entities }
  else if entities.order_keywords.isSome || entities.order_id.isSome then
    { intent := .ORDER_TRACKING
      confidence := if entities.order_id.isSome then mkRat 9 10 else mkRat 75 100
      entities := entities }
  else if entities.order_action.isSome then
    { intent := .ORDER_ACTION, confidence := mkRat 85 100, entities := entities }
  else if entities.user_status.isSome then
    { intent := .USER_STATUS, confidence := mkRat 9 10, entities := entities }
  else if entities.menu_query.isSome then
    { intent := .MENU_QUERY, confidence := mkRat 9 10, entities := entities }
  else if entities.general_faq.isSome then
    { intent := .GENERAL_FAQ, confidence := mkRat 85 100, entities := entities }
  else
    match state with
    | some s =>
      match s.currentIntent with
      | some i => { intent := i, confidence := mkRat 5 10, entities := entities }
      | none =>
        { intent := .GENERAL_QUERY, confidence := mkRat 3 10, entities := entities }
    | none =>
      { intent := .GENERAL_QUERY, confidence := mkRat 3 10, entities := entities }

/-- `shouldUseFallback` (IntentClassifier.ts). -/
def shouldUseFallback (classification : IntentClassification) : Bool :=
  decide (classification.confidence < mkRat 4 10)

/-- The fixed pool of `getFallbackResponse` (IntentClassifier.ts); the random
index is supplied by the environment. -/
def FALLBACK_RESPONSES : List String :=
  ["Maaf, saya tidak yakin apa yang Anda maksud. Bisakah Anda menjelaskan dengan lebih detail?",
   "Saya kurang memahami permintaan Anda. Anda bisa bertanya tentang produk fashion kami atau status pesanan Anda.",
   "Mohon maaf, saya tidak mengerti. Coba tanyakan dengan cara lain atau berikan informasi lebih spesifik.",
   "Saya masih belajar untuk memahami permintaan Anda. Bisakah Anda mengajukan pertanyaan dengan cara yang berbeda?"]

/-! ## ConversationState.ts — partial updates and updateConversationState

A TS partial object is modelled field-by-field: `none` means the key is
absent from the partial, `some v` that it is present with value `v`.  The JS
spread `{...old, ...partial}` then keeps a field of `old` exactly when the
partial does not mention it. -/

/-- A runtime-partial `context` object, as the controller actually builds
them. -/
structure ContextUpdate where
  lastMessage : Option String := none
  lastResponse : Option String := none
  previousIntents : Option (List Intent) := none
  turnCount : Option Nat := none
  lastProductSearch : Option String := none
  lastOrderId : Option String := none
deriving DecidableEq, Repr

/-- A partial `ExtractedEntities` is just an `ExtractedEntities`: every field
is already optional, and an absent field is `none`. -/
abbrev EntitiesUpdate := ExtractedEntities

/-- `Partial<ConversationState>` restricted to the fields the call sites ever
put in an update (never `sessionId`). -/
structure StateUpdate where
  currentIntent : Option Intent := none
  confidence : Option ℚ := none
  entities : Option EntitiesUpdate := none
  context : Option ContextUpdate := none
deriving DecidableEq, Repr

/-- One field of a JS spread: the partial's value when present, else the old
one. -/
def spreadField (upd old : Option α) : Option α :=
  match upd with
  | some v => some v
  | none => old

/-- `{...state.context, ...(updates.context || {})}`. -/
def mergeContext (old : ConvContext) (upd : ContextUpdate) : ConvContext :=
  { lastMessage := upd.lastMessage.getD old.lastMessage
    lastResponse := upd.lastResponse.getD old.lastResponse
    previousIntents := upd.previousIntents.getD old.previousIntents
    turnCount := upd.turnCount.getD old.turnCount
    lastProductSearch := spreadField upd.lastProductSearch old.lastProductSearch
    lastOrderId := spreadField upd.lastOrderId old.lastOrderId }

/-- `{...state.entities, ...(updates.entities || {})}`. -/
def mergeEntities (old upd : ExtractedEntities) : ExtractedEntities :=
  { product_name := spreadField upd.product_name old.product_name
    product_keywords := spreadField upd.product_keywords old.product_keywords
    color := spreadField upd.color old.color
    size := spreadField upd.size old.size
    category := spreadField upd.category old.category
    order_id := spreadField upd.order_id old.order_id
    order_keywords := spreadField upd.order_keywords old.order_keywords
    user_status := spreadField upd.user_status old.user_status
    user_id := spreadField upd.user_id old.user_id
    menu_query := spreadField upd.menu_query old.menu_query
    order_action := spreadField upd.order_action old.order_action
    general_faq := spreadField upd.general_faq old.general_faq }

/-- `updateConversationState` (ConversationState.ts): shallow spread of the
top level, deep key-by-key merge of `context` and `entities`. -/
def updateConversationState (state : ConversationState)
    (updates : StateUpdate) : ConversationState :=
  { sessionId := state.sessionId
    currentIntent := spreadField updates.currentIntent state.currentIntent
    confidence := updates.confidence.getD state.confidence
    context :=
      match updates.context with
      | some c => mergeContext state.context c
      | none => mergeContext state.context {}
    entities :=
      match updates.entities with
      | some e => mergeEntities state.entities e
      | none => mergeEntities state.entities {} }

/-! ## ConversationStateManager.ts — the in-memory session store -/

/-- The `conversationStates` record, as an association list keyed by session
id. -/
def Store := List (String × ConversationState)
deriving DecidableEq

/-- Write-through of `conversationStates[sessionId] = s`. -/
def setStore : Store → String → ConversationState → Store
  | [], sid, s => [(sid, s)]
  | (k, v) :: rest, sid, s =>
    if k = sid then (sid, s) :: rest else (k, v) :: setStore rest sid s

/-- Key lookup in the store. -/
def lookupStore : Store → String → Option ConversationState
  | [], _ => none
  | (k, v) :: rest, sid => if k = sid then some v else lookupStore rest sid

/-- `getConversationState` (ConversationStateManager.ts): get-or-create; also
returns the possibly extended store. -/
def getConversationState (sessionId : String) (store : Store) :
    ConversationState × Store :=
  match lookupStore store sessionId with
  | some s => (s, store)
  | none =>
    let s := createConversationState sessionId
    (s, setStore store sessionId s)

/-- `updateState` (ConversationStateManager.ts): read-merge-write for one
session. -/
def updateState (sessionId : String) (updates : StateUpdate)
    (store : Store) : ConversationState × Store :=
  let (currentState, store1) := getConversationState sessionId store
  let updatedState := updateConversationState currentState updates
  (updatedState, setStore store1 sessionId updatedState)

/-! ## chatController.ts — the chat handler

The external collaborators (external product/order/user APIs, the local mock
providers, the formatting helpers, the LLM call, and the two random draws) are
out-of-scope adapters; they are supplied as oracles in `Env`.  A throwing
`await` is an oracle returning `none`.  The mock providers are total (they
filter fixed in-memory arrays).  A turn that ends in the controller's outer
`catch` (HTTP 500) or in the empty-message 400 is not a handled turn and is
modelled as `none`. -/

/-- The external calls the handler can issue, in source vocabulary. -/
inductive ExtCall where
  | searchProductsExternal
  | searchProducts
  | getOrderByIdExternal
  | getOrderById
  | getUserStatusExternal
  | groqChat
deriving DecidableEq, Repr

/-- Oracles for everything outside the core (collaborator interfaces of the
spec §6), plus the request's auth cookie and the two random indices. -/
structure Env where
  /-- `req.cookies?.aninka_session`. -/
  cookie : Option String
  /-- `searchProductsExternal(query, category, color, size, 1, 5, cookie)`;
  `none` = the awaited promise rejects. -/
  searchProductsExternal : String → Option String → Option String →
    Option String → Option String → Option (List String)
  formatExternalProductResponse : List String → String
  /-- local mock `searchProducts`. -/
  searchProducts : String → List String
  formatProductResponse : List String → String
  /-- `getOrderByIdExternal(orderId, cookie)`; outer `none` = rejects, inner
  `none` = resolves to a falsy order. -/
  getOrderByIdExternal : String → Option String → Option (Option String)
  formatExternalOrderResponse : String → String
  /-- local mock `getOrderById`. -/
  getOrderById : String → Option String
  formatOrderResponse : Option String → String
  /-- `getUserStatusExternal(userId, cookie)`; `none` = rejects. -/
  getUserStatusExternal : String → String → Option String
  formatUserStatusResponse : String → String
  /-- `getGroqResponse(message, state)`; `none` = rejects (propagates to the
  outer catch). -/
  groq : String → ConversationState → Option String
  /-- `Math.floor(Math.random() * greetings.length)`. -/
  greetIdx : Nat
  /-- `Math.floor(Math.random() * fallbackResponses.length)`. -/
  fallbackIdx : Nat

/-- The fixed greeting replies of the GREETING case. -/
def GREETING_RESPONSES : List String :=
  ["Halo! Selamat datang di Aninka Fashion. Ada yang bisa saya bantu hari ini?",
   "Selamat datang di layanan chat Aninka Fashion. Bagaimana saya bisa membantu Anda?",
   "Hai! Terima kasih telah menghubungi Aninka Fashion. Ada yang bisa saya bantu?"]

/-- The fixed reply when user id or auth cookie is missing (USER_STATUS). -/
def LOGIN_PROMPT : String :=
  "Untuk melihat status keanggotaan Anda, silakan login terlebih dahulu."

/-- The fixed reply when the user-status lookup fails (USER_STATUS). -/
def STATUS_APOLOGY : String :=
  "Maaf, saya tidak dapat mengakses informasi keanggotaan Anda saat ini. Silakan coba lagi nanti atau hubungi customer service kami."

/-- Outcome of one handled turn. -/
structure TurnResult where
  store : Store
  response : String
  calls : List ExtCall
deriving DecidableEq

/-- One invocation of `chat` (chatController.ts) on a message for session
`sid` against the current store.  Returns `none` for the 400 (missing
message) and 500 (propagated failure) exits, `some` for every `res.json`
exit. -/
def chatTurn (env : Env) (sid message : String) (store : Store) :
    Option TurnResult :=
  if message = "" then none
  else
    let gs := getConversationState sid store
    let conversationState := gs.1
    let store := gs.2
    let classification := classifyIntent message (some conversationState)
    let store := (updateState sid
      { currentIntent := some classification.intent
        confidence := some classification.confidence
        entities := some classification.entities } store).2
    if shouldUseFallback classification then
      let fallbackResponse := FALLBACK_RESPONSES.getD env.fallbackIdx ""
      let store := (updateState sid
        { context := some
            { lastMessage := some message
              lastResponse := some fallbackResponse
              turnCount := some (conversationState.context.turnCount + 1)
              previousIntents := some
                (conversationState.context.previousIntents
                  ++ [classification.intent]) } } store).2
      some { store := store, response := fallbackResponse, calls := [] }
    else
      let branch : Option (String × Store × List ExtCall) :=
        match classification.intent with
        | .PRODUCT_SEARCH =>
          let productQuery :=
            if jsTruthy classification.entities.product_name then
              classification.entities.product_name.getD ""
            else if optListNonempty classification.entities.product_keywords
            then (classification.entities.product_keywords.getD []).headD ""
            else ""
          if productQuery = "" then
            (env.groq message conversationState).map
              (fun r => (r, store, [ExtCall.groqChat]))
          else
            let rc :=
              match env.searchProductsExternal productQuery
                  classification.entities.category
                  classification.entities.color
                  classification.entities.size env.cookie with
              | some externalProducts =>
                if externalProducts.length > 0 then
                  (env.formatExternalProductResponse externalProducts,
                   [ExtCall.searchProductsExternal])
                else
                  (env.formatProductResponse
                      (env.searchProducts productQuery),
                   [ExtCall.searchProductsExternal, ExtCall.searchProducts])
              | none =>
                (env.formatProductResponse (env.searchProducts productQuery),
                 [ExtCall.searchProductsExternal, ExtCall.searchProducts])
            let store := (updateState sid
              { context := some
                  { lastProductSearch := some productQuery
                    lastMessage := some message
                    lastResponse := some rc.1
                    turnCount := some (conversationState.context.turnCount + 1)
                    previousIntents := some
                      (conversationState.context.previousIntents
                        ++ [classification.intent]) } } store).2
            some (rc.1, store, rc.2)
        | .ORDER_TRACKING =>
          let orderId := classification.entities.order_id
          if jsTruthy orderId then
            let rc :=
              match env.getOrderByIdExternal (orderId.getD "") env.cookie with
              | some (some externalOrder) =>
                (env.formatExternalOrderResponse externalOrder,
                 [ExtCall.getOrderByIdExternal])
              | some none =>
                (env.formatOrderResponse (env.getOrderById (orderId.getD "")),
                 [ExtCall.getOrderByIdExternal, ExtCall.getOrderById])
              | none =>
                (env.formatOrderResponse (env.getOrderById (orderId.getD "")),
                 [ExtCall.getOrderByIdExternal, ExtCall.getOrderById])
            let store := (updateState sid
              { context := some
                  { lastOrderId := some (orderId.getD "")
                    lastMessage := some message
                    lastResponse := some rc.1
                    turnCount := some (conversationState.context.turnCount + 1)
                    previousIntents := some
                      (conversationState.context.previousIntents
                        ++ [classification.intent]) } } store).2
            some (rc.1, store, rc.2)
          else
            (env.groq message conversationState).map
              (fun r => (r, store, [ExtCall.groqChat]))
        | .GREETING =>
          some (GREETING_RESPONSES.getD env.greetIdx "", store, [])
        | .USER_STATUS =>
          let userId := classification.entities.user_id
          if jsTruthy userId && jsTruthy env.cookie then
            match env.getUserStatusExternal (userId.getD "")
                (env.cookie.getD "") with
            | some userStatus =>
              some (env.formatUserStatusResponse userStatus, store,
                [ExtCall.getUserStatusExternal])
            | none =>
              some (STATUS_APOLOGY, store, [ExtCall.getUserStatusExternal])
          else
            some (LOGIN_PROMPT, store, [])
        | _ =>
          (env.groq message conversationState).map
            (fun r => (r, store, [ExtCall.groqChat]))
      match branch with
      | none => none
      | some (responseText, store, calls) =>
        let store := (updateState sid
          { context := some
              { lastMessage := some message
                lastResponse := some responseText
                turnCount := some (conversationState.context.turnCount + 1)
                previousIntents := some
                  (conversationState.context.previousIntents
                    ++ [classification.intent]) } } store).2
        some { store := store, response := responseText, calls := calls }

/-- Run a sequence of turns for one session; fails as soon as one turn is not
handled. -/
def runTurns (sid : String) : List (String × Env) → Store → Option Store
  | [], store => some store
  | (m, env) :: rest, store =>
    match chatTurn env sid m store with
    | none => none
    | some r => runTurns sid rest r.store

/-- The turn counter the store holds for a session (`0` when the session is
not yet tracked, matching the state get-or-create would deliver). -/
def turnCountOf (store : Store) (sid : String) : Nat :=
  (getConversationState sid store).1.context.turnCount

/-! ## Spec-side definition for the order-action refinement claim -/

/-- Spec §4.1 step 6, stated in the spec's own terms: the order action is
tested with fixed priority — cancel-keywords first, then return-keywords,
then refund-keywords — and at most one action is recorded, the first priority
level that matches (no accumulation). -/
def orderActionSpec (text : String) : Option String :=
  let lm := lowerStr text
  if strContains lm "cancel" || strContains lm "batal" then some "cancel"
  else if strContains lm "return" || strContains lm "pengembalian" then
    some "return"
  else if strContains lm "refund" then some "refund"
  else none

/-! ## Concrete data for witnesses and counterexamples -/

/-- A benign oracle environment: no auth cookie, every external call
succeeds. -/
def demoEnv : Env :=
  { cookie := none
    searchProductsExternal := fun _ _ _ _ _ => some ["p1"]
    formatExternalProductResponse := fun _ => "ext products"
    searchProducts := fun _ => ["m1"]
    formatProductResponse := fun _ => "mock products"
    getOrderByIdExternal := fun _ _ => some (some "o1")
    formatExternalOrderResponse := fun _ => "ext order"
    getOrderById := fun _ => some "mo"
    formatOrderResponse := fun _ => "mock order"
    getUserStatusExternal := fun _ _ => some "gold"
    formatUserStatusResponse := fun _ => "status gold"
    greetIdx := 0
    fallbackIdx := 0
    groq := fun _ _ => some "llm reply" }

/-- `demoEnv` with an authenticated session cookie. -/
def demoEnvAuth : Env := { demoEnv with cookie := some "aninka-cookie" }

/-- A two-turn script for one session: the first message has no signal (it
takes the fallback path), the second is a greeting (dispatched). -/
def demoTurns : List (String × Env) :=
  [("qwerty", demoEnv), ("halo", demoEnv)]

/-- A stored state whose previous turn classified as ORDER_TRACKING, as the
context-continuation scenario requires. -/
def stOrderTracking : ConversationState :=
  { createConversationState "sess-1" with
      currentIntent := some Intent.ORDER_TRACKING
      confidence := mkRat 75 100
      context :=
        { lastMessage := "lacak order 4521"
          lastResponse := "ext order"
          previousIntents := [Intent.ORDER_TRACKING]
          turnCount := 1
          lastOrderId := some "4521" } }

/-- A state carrying `currentIntent = FALLBACK`, constructible because
FALLBACK is a member of the intent enum and `updateConversationState` accepts
any intent value. -/
def stFallbackIntent : ConversationState :=
  { createConversationState "sess-2" with currentIntent := some Intent.FALLBACK }

/-- A state with populated `context.lastOrderId`, `context.lastProductSearch`
and entity fields, for the deep-merge preservation witness. -/
def stPopulated : ConversationState :=
  { sessionId := "sess-3"
    currentIntent := some Intent.ORDER_TRACKING
    entities := { order_id := some "4521", color := some "merah" }
    context :=
      { lastMessage := "lacak order 4521"
        lastResponse := "ext order"
        previousIntents := [Intent.ORDER_TRACKING]
        turnCount := 3
        lastProductSearch := some "dress"
        lastOrderId := some "4521" }
    confidence := mkRat 9 10 }

/-- The partial update `{context: {lastMessage: "x"}}` of the deep-merge
scenario. -/
def updLastMessageX : StateUpdate :=
  { context := some { lastMessage := some "x" } }

/-! ## Theorems -/

theorem categoryStep_order_action (lm : String) (e : ExtractedEntities) :
    (categoryStep lm e).order_action = e.order_action := by
  unfold categoryStep; split <;> rfl

theorem categoryDefaultStep_order_action (e : ExtractedEntities) :
    (categoryDefaultStep e).order_action = e.order_action := by
  unfold categoryDefaultStep; split <;> rfl

theorem productStep_order_action (lm : String) (e : ExtractedEntities) :
    (productStep lm e).order_action = e.order_action := by
  unfold productStep; dsimp only; split <;> rfl

theorem orderKeywordsStep_order_action (lm : String) (e : ExtractedEntities) :
    (orderKeywordsStep lm e).order_action = e.order_action := by
  unfold orderKeywordsStep; dsimp only; split <;> rfl

theorem orderIdStep_order_action (lm : String) (e : ExtractedEntities) :
    (orderIdStep lm e).order_action = e.order_action := by
  unfold orderIdStep; split <;> rfl

theorem colorStep_order_action (lm : String) (e : ExtractedEntities) :
    (colorStep lm e).order_action = e.order_action := by
  unfold colorStep; split <;> rfl

theorem sizeStep_order_action (lm : String) (e : ExtractedEntities) :
    (sizeStep lm e).order_action = e.order_action := by
  unfold sizeStep; split <;> rfl

theorem userStatusStep_order_action (lm : String) (e : ExtractedEntities) :
    (userStatusStep lm e).order_action = e.order_action := by
  unfold userStatusStep; split <;> rfl

theorem userIdStep_order_action (lm : String) (e : ExtractedEntities) :
    (userIdStep lm e).order_action = e.order_action := by
  unfold userIdStep; split <;> rfl

theorem menuStep_order_action (lm : String) (e : ExtractedEntities) :
    (menuStep lm e).order_action = e.order_action := by
  unfold menuStep; split <;> rfl

theorem faqStep_order_action (lm : String) (e : ExtractedEntities) :
    (faqStep lm e).order_action = e.order_action := by
  unfold faqStep; split <;> rfl

theorem orderActionStep_eq (lm : String) (e : ExtractedEntities)
    (h : e.order_action = none) :
    (orderActionStep lm e).order_action =
      (if strContains lm "cancel" || strContains lm "batal" then some "cancel"
       else if strContains lm "return" || strContains lm "pengembalian" then
         some "return"
       else if strContains lm "refund" then some "refund"
       else none) := by
  unfold orderActionStep; split_ifs <;> simp [h]

/-- C8: extractEntities records at most one order action, by fixed priority
with first match winning. -/
theorem extractEntities_order_action_spec :
    (∀ m : String, (extractEntities m).order_action = orderActionSpec m)
    ∧ (extractEntities "tolong cancel dan refund pesanan ini").order_action
        = some "cancel" := by
  constructor
  · intro m
    unfold extractEntities orderActionSpec
    rw [faqStep_order_action, menuStep_order_action, userIdStep_order_action,
      userStatusStep_order_action, sizeStep_order_action,
      colorStep_order_action,
      orderActionStep_eq]
    rw [orderIdStep_order_action, orderKeywordsStep_order_action,
      productStep_order_action, categoryDefaultStep_order_action,
      categoryStep_order_action]
  · decide

/-- Every branch of the classifier either is the default branch (GENERAL_QUERY
at confidence 3/10) or scores at least 5/10. -/
theorem classify_shape (m : String) (st : Option ConversationState) :
    ((classifyIntent m st).intent = Intent.GENERAL_QUERY
      ∧ (classifyIntent m st).confidence = mkRat 3 10)
    ∨ mkRat 5 10 ≤ (classifyIntent m st).confidence := by
  rcases st with _ | s
  · simp only [classifyIntent]
    split_ifs <;> dsimp only <;> decide
  · rcases hcs : s.currentIntent with _ | i
    · simp only [classifyIntent, hcs]
      split_ifs <;> dsimp only <;> decide
    · simp only [classifyIntent, hcs]
      split_ifs <;> dsimp only <;> first
        | decide
        | exact Or.inr (by decide)

/-- Classifier confidences lie in the fixed six-element pool. -/
theorem classify_conf_mem (m : String) (st : Option ConversationState) :
    (classifyIntent m st).confidence = mkRat 3 10
    ∨ (classifyIntent m st).confidence = mkRat 5 10
    ∨ (classifyIntent m st).confidence = mkRat 7 10
    ∨ (classifyIntent m st).confidence = mkRat 75 100
    ∨ (classifyIntent m st).confidence = mkRat 85 100
    ∨ (classifyIntent m st).confidence = mkRat 9 10 := by
  rcases st with _ | s
  · simp only [classifyIntent]
    split_ifs <;> dsimp only <;> decide
  · rcases hcs : s.currentIntent with _ | i <;>
      · simp only [classifyIntent, hcs]
        split_ifs <;> dsimp only <;> decide

/-- The classifier can only emit FALLBACK by echoing a stored FALLBACK intent
through the context-continuation rule. -/
theorem classify_not_fallback (m : String) (st : Option ConversationState)
    (h : ∀ s, st = some s → s.currentIntent ≠ some Intent.FALLBACK) :
    (classifyIntent m st).intent ≠ Intent.FALLBACK := by
  rcases st with _ | s
  · simp only [classifyIntent]
    split_ifs <;> dsimp only <;> decide
  · rcases hcs : s.currentIntent with _ | i
    · simp only [classifyIntent, hcs]
      split_ifs <;> dsimp only <;> decide
    · have hi : i ≠ Intent.FALLBACK := fun hfb => h s rfl (hfb ▸ hcs)
      simp only [classifyIntent, hcs]
      split_ifs <;> dsimp only <;> first
        | decide
        | exact hi

/-- C1 (code bug evidence): on "cari twill" there is product evidence
(two product keywords match) and no category keyword is a substring, yet
`extractEntities` leaves `category` unset instead of defaulting it to
"gamis" — the defaulting guard reads `product_keywords`/`product_name`
before the product section has assigned them, so it can never fire. -/
theorem extractEntities_category_default_dead :
    (extractEntities "cari twill").product_keywords = some ["twill", "cari"]
    ∧ CATEGORY_KEYWORDS.all
        (fun kc => !(strContains (lowerStr "cari twill") kc.1)) = true
    ∧ (extractEntities "cari twill").category = none := by decide

/-- C4: the fallback gate holds exactly below confidence 4/10, and it is hit
only by the default branch (GENERAL_QUERY at 3/10); every other classifier
branch scores at least 5/10 and never trips the gate. -/
theorem shouldUseFallback_characterization (m : String)
    (st : Option ConversationState) :
    shouldUseFallback (classifyIntent m st)
        = decide ((classifyIntent m st).confidence < mkRat 4 10)
    ∧ ((shouldUseFallback (classifyIntent m st) = true
        ∧ (classifyIntent m st).intent = Intent.GENERAL_QUERY
        ∧ (classifyIntent m st).confidence = mkRat 3 10)
      ∨ (shouldUseFallback (classifyIntent m st) = false
        ∧ mkRat 5 10 ≤ (classifyIntent m st).confidence)) := by
  refine ⟨rfl, ?_⟩
  rcases classify_shape m st with ⟨hi, hc⟩ | hge
  · refine Or.inl ⟨?_, hi, hc⟩
    simp only [shouldUseFallback, hc]
    decide
  · refine Or.inr ⟨?_, hge⟩
    simp only [shouldUseFallback]
    rw [decide_eq_false_iff_not]
    exact not_lt.mpr (le_trans (by decide) hge)

/-- C5: a message containing a greeting phrase and shorter than 20 characters
always classifies as GREETING at confidence 9/10 with the entities discarded,
whatever other evidence the text holds and whatever the prior state. -/
theorem classify_greeting_short (m : String) (st : Option ConversationState)
    (p : String) (hp : p ∈ GREETING_PATTERNS)
    (hc : strContains (lowerStr m) p = true)
    (hlen : (lowerStr m).length < 20) :
    classifyIntent m st =
      { intent := Intent.GREETING, confidence := mkRat 9 10, entities := {} } := by
  have hany : GREETING_PATTERNS.any (fun q => strContains (lowerStr m) q)
      = true := List.any_eq_true.mpr ⟨p, hp, hc⟩
  have hcond : (GREETING_PATTERNS.any (fun q => strContains (lowerStr m) q)
      && decide ((lowerStr m).length < 20)) = true := by
    rw [hany]
    simp [hlen]
  simp [classifyIntent, hcond]

/-- Witness for C5 at the concrete greeting "halo". -/
theorem classify_greeting_short_witness :
    classifyIntent "halo" none =
      { intent := Intent.GREETING, confidence := mkRat 9 10, entities := {} } :=
  classify_greeting_short "halo" none "halo" (by decide) (by decide) (by decide)

/-- C6: when no classifier rule fires on the message and the prior state has
a current intent, that intent is reused at confidence 5/10 with the entities
freshly extracted from the current message, and the fallback gate does not
trip. -/
theorem classify_context_continuation (m : String) (s : ConversationState)
    (i : Intent)
    (hG : (GREETING_PATTERNS.any (fun p => strContains (lowerStr m) p)
        && decide ((lowerStr m).length < 20)) = false)
    (h1 : (extractEntities m).product_keywords = none)
    (h2 : (extractEntities m).product_name = none)
    (h3 : (extractEntities m).color = none)
    (h4 : (extractEntities m).size = none)
    (h5 : (extractEntities m).category = none)
    (h6 : (extractEntities m).order_keywords = none)
    (h7 : (extractEntities m).order_id = none)
    (h8 : (extractEntities m).order_action = none)
    (h9 : (extractEntities m).user_status = none)
    (h10 : (extractEntities m).menu_query = none)
    (h11 : (extractEntities m).general_faq = none)
    (hs : s.currentIntent = some i) :
    classifyIntent m (some s) =
      { intent := i, confidence := mkRat 5 10, entities := extractEntities m }
    ∧ shouldUseFallback (classifyIntent m (some s)) = false := by
  have heq : classifyIntent m (some s) =
      { intent := i, confidence := mkRat 5 10
        entities := extractEntities m } := by
    simp only [classifyIntent, hG, h1, h2, h3, h4, h5, h6, h7, h8, h9, h10,
      h11, hs]
    simp
  refine ⟨heq, ?_⟩
  rw [heq]
  show decide ((mkRat 5 10 : ℚ) < mkRat 4 10) = false
  decide

/-- Witness for C6: "ya, lanjutkan" after a stored ORDER_TRACKING intent. -/
theorem classify_context_continuation_witness :
    classifyIntent "ya, lanjutkan" (some stOrderTracking) =
      { intent := Intent.ORDER_TRACKING, confidence := mkRat 5 10
        entities := extractEntities "ya, lanjutkan" }
    ∧ shouldUseFallback
        (classifyIntent "ya, lanjutkan" (some stOrderTracking)) = false :=
  classify_context_continuation "ya, lanjutkan" stOrderTracking
    Intent.ORDER_TRACKING (by decide) (by decide) (by decide) (by decide)
    (by decide) (by decide) (by decide) (by decide) (by decide) (by decide)
    (by decide) (by decide) (by decide)

/-- C7: the documented product-search scenario evaluates as specified. -/
theorem scenario_dress_merah_m :
    ((extractEntities "saya mau cari dress warna merah ukuran m").product_keywords.getD []).contains
        "dress" = true
    ∧ (extractEntities "saya mau cari dress warna merah ukuran m").color
        = some "merah"
    ∧ (extractEntities "saya mau cari dress warna merah ukuran m").size
        = some "m"
    ∧ (extractEntities "saya mau cari dress warna merah ukuran m").category
        = some "gamis"
    ∧ (classifyIntent "saya mau cari dress warna merah ukuran m" none).intent
        = Intent.PRODUCT_SEARCH
    ∧ (classifyIntent "saya mau cari dress warna merah ukuran m" none).confidence
        = mkRat 85 100 := by decide

/-- C10 counterexample: with a prior state whose stored intent is FALLBACK,
the context-continuation rule makes the classifier return FALLBACK, so over
arbitrary prior states the intent is not always different from FALLBACK. -/
theorem classify_fallback_reachable :
    (classifyIntent "zzz" (some stFallbackIntent)).intent = Intent.FALLBACK := by
  decide

/-- C10 (amended): for every message, and every optional prior state that
does not itself store FALLBACK as its current intent, the classification
confidence lies in the six-value pool and the intent is never FALLBACK. -/
theorem classify_conf_pool_and_no_fallback (m : String)
    (st : Option ConversationState)
    (h : ∀ s, st = some s → s.currentIntent ≠ some Intent.FALLBACK) :
    ((classifyIntent m st).confidence = mkRat 3 10
      ∨ (classifyIntent m st).confidence = mkRat 5 10
      ∨ (classifyIntent m st).confidence = mkRat 7 10
      ∨ (classifyIntent m st).confidence = mkRat 75 100
      ∨ (classifyIntent m st).confidence = mkRat 85 100
      ∨ (classifyIntent m st).confidence = mkRat 9 10)
    ∧ (classifyIntent m st).intent ≠ Intent.FALLBACK :=
  ⟨classify_conf_mem m st, classify_not_fallback m st h⟩

/-- Witness for the amended C10 at a concrete entity-free message. -/
theorem classify_conf_pool_and_no_fallback_witness :
    ((classifyIntent "zzz" none).confidence = mkRat 3 10
      ∨ (classifyIntent "zzz" none).confidence = mkRat 5 10
      ∨ (classifyIntent "zzz" none).confidence = mkRat 7 10
      ∨ (classifyIntent "zzz" none).confidence = mkRat 75 100
      ∨ (classifyIntent "zzz" none).confidence = mkRat 85 100
      ∨ (classifyIntent "zzz" none).confidence = mkRat 9 10)
    ∧ (classifyIntent "zzz" none).intent ≠ Intent.FALLBACK :=
  classify_conf_pool_and_no_fallback "zzz" none
    (fun _ hs => Option.noConfusion hs)

/-- C3: the state-update operation deep-merges the `context` and `entities`
sub-objects — every key not mentioned in the partial keeps its previous
value, and an absent sub-object leaves the whole sub-object unchanged. -/
theorem updateConversationState_deep_merge (s : ConversationState)
    (u : StateUpdate) (cp : ContextUpdate) (ep : EntitiesUpdate) :
    (u.context = some cp →
      (cp.lastMessage = none →
        (updateConversationState s u).context.lastMessage
          = s.context.lastMessage)
      ∧ (cp.lastResponse = none →
        (updateConversationState s u).context.lastResponse
          = s.context.lastResponse)
      ∧ (cp.previousIntents = none →
        (updateConversationState s u).context.previousIntents
          = s.context.previousIntents)
      ∧ (cp.turnCount = none →
        (updateConversationState s u).context.turnCount
          = s.context.turnCount)
      ∧ (cp.lastProductSearch = none →
        (updateConversationState s u).context.lastProductSearch
          = s.context.lastProductSearch)
      ∧ (cp.lastOrderId = none →
        (updateConversationState s u).context.lastOrderId
          = s.context.lastOrderId))
    ∧ (u.context = none →
        (updateConversationState s u).context = s.context)
    ∧ (u.entities = some ep →
      (ep.product_name = none →
        (updateConversationState s u).entities.product_name
          = s.entities.product_name)
      ∧ (ep.product_keywords = none →
        (updateConversationState s u).entities.product_keywords
          = s.entities.product_keywords)
      ∧ (ep.color = none →
        (updateConversationState s u).entities.color = s.entities.color)
      ∧ (ep.size = none →
        (updateConversationState s u).entities.size = s.entities.size)
      ∧ (ep.category = none →
        (updateConversationState s u).entities.category = s.entities.category)
      ∧ (ep.order_id = none →
        (updateConversationState s u).entities.order_id = s.entities.order_id)
      ∧ (ep.order_keywords = none →
        (updateConversationState s u).entities.order_keywords
          = s.entities.order_keywords)
      ∧ (ep.user_status = none →
        (updateConversationState s u).entities.user_status
          = s.entities.user_status)
      ∧ (ep.user_id = none →
        (updateConversationState s u).entities.user_id = s.entities.user_id)
      ∧ (ep.menu_query = none →
        (updateConversationState s u).entities.menu_query
          = s.entities.menu_query)
      ∧ (ep.order_action = none →
        (updateConversationState s u).entities.order_action
          = s.entities.order_action)
      ∧ (ep.general_faq = none →
        (updateConversationState s u).entities.general_faq
          = s.entities.general_faq))
    ∧ (u.entities = none →
        (updateConversationState s u).entities = s.entities) := by
  refine ⟨?_, ?_, ?_, ?_⟩
  · intro h
    refine ⟨?_, ?_, ?_, ?_, ?_, ?_⟩ <;> intro hf <;>
      simp [updateConversationState, mergeContext, spreadField, h, hf]
  · intro h
    simp [updateConversationState, mergeContext, spreadField, h]
  · intro h
    refine ⟨?_, ?_, ?_, ?_, ?_, ?_, ?_, ?_, ?_, ?_, ?_, ?_⟩ <;> intro hf <;>
      simp [updateConversationState, mergeEntities, spreadField, h, hf]
  · intro h
    simp [updateConversationState, mergeEntities, spreadField, h]

/-- Witness for C3: updating with `{context: {lastMessage: "x"}}` preserves
the stored `lastOrderId`, `lastProductSearch` and the entities object. -/
theorem updateConversationState_deep_merge_witness :
    (updateConversationState stPopulated updLastMessageX).context.lastOrderId
        = some "4521"
    ∧ (updateConversationState stPopulated updLastMessageX).context.lastProductSearch
        = some "dress"
    ∧ (updateConversationState stPopulated updLastMessageX).entities
        = stPopulated.entities := by
  have h := updateConversationState_deep_merge stPopulated updLastMessageX
    { lastMessage := some "x" } {}
  exact ⟨((h.1 rfl).2.2.2.2.2 rfl).trans rfl,
    ((h.1 rfl).2.2.2.2.1 rfl).trans rfl,
    h.2.2.2 rfl⟩

theorem lookupStore_setStore_self (st : Store) (sid : String)
    (s : ConversationState) :
    lookupStore (setStore st sid s) sid = some s := by
  induction st with
  | nil => simp [setStore, lookupStore]
  | cons kv rest ih =>
    obtain ⟨k, v⟩ := kv
    by_cases h : k = sid
    · simp [setStore, lookupStore, h]
    · simp [setStore, lookupStore, h, ih]

theorem turnCountOf_setStore (st : Store) (sid : String)
    (s : ConversationState) :
    turnCountOf (setStore st sid s) sid = s.context.turnCount := by
  unfold turnCountOf getConversationState
  rw [lookupStore_setStore_self]

/-- A store update whose context partial pins `turnCount` to `n` leaves the
session's stored turn counter at exactly `n`. -/
theorem updateState_turnCount (sid : String) (u : StateUpdate) (st : Store)
    (cp : ContextUpdate) (n : Nat) (hc : u.context = some cp)
    (ht : cp.turnCount = some n) :
    turnCountOf (updateState sid u st).2 sid = n := by
  unfold updateState
  dsimp only
  rw [turnCountOf_setStore]
  unfold updateConversationState
  rw [hc]
  dsimp only
  unfold mergeContext
  rw [ht]
  rfl

/-- Every handled turn sets the session's stored turn counter to its
pre-turn value plus one, on the fallback path and on every dispatch path,
even when the turn issues two context updates. -/
theorem chatTurn_turnCount (env : Env) (sid m : String) (store : Store)
    (r : TurnResult) (h : chatTurn env sid m store = some r) :
    turnCountOf r.store sid = turnCountOf store sid + 1 := by
  simp only [chatTurn] at h
  split at h
  · exact absurd h (by simp)
  · split at h
    · -- fallback path
      injection h with h2
      rw [← h2]
      exact updateState_turnCount _ _ _ _ _ rfl rfl
    · -- dispatch path: case on the branch outcome
      split at h
      · exact absurd h (by simp)
      · injection h with h2
        rw [← h2]
        exact updateState_turnCount _ _ _ _ _ rfl rfl

theorem runTurns_turnCount (sid : String) (ts : List (String × Env)) :
    ∀ (store store' : Store), runTurns sid ts store = some store' →
      turnCountOf store' sid = turnCountOf store sid + ts.length := by
  induction ts with
  | nil =>
    intro store store' h
    simp only [runTurns] at h
    injection h with h2
    rw [h2]
    simp
  | cons t rest ih =>
    intro store store' h
    obtain ⟨m, env⟩ := t
    simp only [runTurns] at h
    split at h
    · exact absurd h (by simp)
    · rename_i r hr
      have h1 := chatTurn_turnCount env sid m store r hr
      have h2 := ih r.store store' h
      rw [h2, h1]
      simp [List.length_cons]
      omega

/-- C2: starting from an untracked session, after any sequence of handled
turns the stored turn counter equals the number of turns. -/
theorem chat_turnCount_counts_turns (sid : String) (ts : List (String × Env))
    (h : (runTurns sid ts []).isSome = true) :
    (runTurns sid ts []).map (fun st => turnCountOf st sid)
      = some ts.length := by
  obtain ⟨store', hs⟩ := Option.isSome_iff_exists.mp h
  have ht := runTurns_turnCount sid ts [] store' hs
  have h0 : turnCountOf ([] : Store) sid = 0 := rfl
  rw [hs]
  simp [ht, h0]

/-- Witness for C2: a fallback turn followed by a dispatched greeting turn
leaves the counter at 2. -/
theorem chat_turnCount_counts_turns_witness :
    (runTurns "s1" demoTurns []).map (fun st => turnCountOf st "s1")
      = some demoTurns.length :=
  chat_turnCount_counts_turns "s1" demoTurns (by decide)

/-- C9: on a USER_STATUS classification the handler consults the user-status
action only when both an extracted user id and an auth cookie are present;
with either missing it answers the fixed login prompt without any external
call, and when the action call fails it answers the fixed apology. -/
theorem chat_user_status_auth_gate (env : Env) (sid m : String)
    (store : Store) (h0 : m ≠ "")
    (h1 : (classifyIntent m (some (getConversationState sid store).1)).intent
        = Intent.USER_STATUS) :
    ((jsTruthy (classifyIntent m
          (some (getConversationState sid store).1)).entities.user_id
        && jsTruthy env.cookie) = false →
      (chatTurn env sid m store).map (fun t => (t.response, t.calls))
        = some (LOGIN_PROMPT, []))
    ∧ ((jsTruthy (classifyIntent m
          (some (getConversationState sid store).1)).entities.user_id
        && jsTruthy env.cookie) = true →
      env.getUserStatusExternal
          ((classifyIntent m
              (some (getConversationState sid store).1)).entities.user_id.getD "")
          (env.cookie.getD "") = none →
      (chatTurn env sid m store).map (fun t => (t.response, t.calls))
        = some (STATUS_APOLOGY, [ExtCall.getUserStatusExternal]))
    ∧ (∀ r, chatTurn env sid m store = some r →
      ExtCall.getUserStatusExternal ∈ r.calls →
      (jsTruthy (classifyIntent m
          (some (getConversationState sid store).1)).entities.user_id
        && jsTruthy env.cookie) = true) := by
  have hsf : shouldUseFallback
      (classifyIntent m (some (getConversationState sid store).1)) = false := by
    rcases classify_shape m (some (getConversationState sid store).1) with
      ⟨hi, _⟩ | hge
    · rw [h1] at hi
      exact absurd hi (by decide)
    · simp only [shouldUseFallback]
      rw [decide_eq_false_iff_not]
      exact not_lt.mpr (le_trans (by decide) hge)
  cases hcond : (jsTruthy (classifyIntent m
      (some (getConversationState sid store).1)).entities.user_id
    && jsTruthy env.cookie) with
  | false =>
    have hct : (chatTurn env sid m store).map (fun t => (t.response, t.calls))
        = some (LOGIN_PROMPT, []) := by
      simp only [chatTurn, if_neg h0, hsf, h1, hcond]
      simp
    refine ⟨fun _ => hct, fun hc => absurd hc (by decide), ?_⟩
    intro r hr hmem
    have hmap : (chatTurn env sid m store).map (fun t => (t.response, t.calls))
        = some (r.response, r.calls) := by rw [hr]; rfl
    rw [hct] at hmap
    injection hmap with h2
    have hcalls : r.calls = [] := (congrArg Prod.snd h2).symm
    rw [hcalls] at hmem
    exact absurd hmem (List.not_mem_nil _)
  | true =>
    refine ⟨fun hc => absurd hc (by decide), ?_, fun _ _ _ => rfl⟩
    intro _ hext
    simp only [chatTurn, if_neg h0, hsf, h1, hcond, hext]
    simp

/-- Witness for C9: "akun saya member 123" classifies as USER_STATUS; with no
cookie in the environment the conclusions of the auth-gate theorem hold at
this input. -/
theorem chat_user_status_auth_gate_witness :
    ((jsTruthy (classifyIntent "akun saya member 123"
          (some (getConversationState "s1" ([] : Store)).1)).entities.user_id
        && jsTruthy demoEnv.cookie) = false →
      (chatTurn demoEnv "s1" "akun saya member 123" []).map
          (fun t => (t.response, t.calls)) = some (LOGIN_PROMPT, []))
    ∧ ((jsTruthy (classifyIntent "akun saya member 123"
          (some (getConversationState "s1" ([] : Store)).1)).entities.user_id
        && jsTruthy demoEnv.cookie) = true →
      demoEnv.getUserStatusExternal
          ((classifyIntent "akun saya member 123"
              (some (getConversationState "s1"
                ([] : Store)).1)).entities.user_id.getD "")
          (demoEnv.cookie.getD "") = none →
      (chatTurn demoEnv "s1" "akun saya member 123" []).map
          (fun t => (t.response, t.calls))
        = some (STATUS_APOLOGY, [ExtCall.getUserStatusExternal]))
    ∧ (∀ r, chatTurn demoEnv "s1" "akun saya member 123" [] = some r →
      ExtCall.getUserStatusExternal ∈ r.calls →
      (jsTruthy (classifyIntent "akun saya member 123"
          (some (getConversationState "s1" ([] : Store)).1)).entities.user_id
        && jsTruthy demoEnv.cookie) = true) :=
  chat_user_status_auth_gate demoEnv "s1" "akun saya member 123" []
    (by decide) (by decide)

end Aninka
